import Mathlib

/-!
Shallow embedding of the chat-service core (message validation, session
registry, broadcast engine, and the Celery derivation tasks) from
`Server/chatService`.  Python dict values are modelled by `Val`, dicts by
association lists, and all side effects (socket emits, Redis publishes,
Celery enqueues, the temp file written by the transcription task) are made
explicit as returned data.
-/

/-- A Python scalar value as it appears in message dicts: strings, `None`,
booleans and integers.  Enough to express truthiness (`if content:`)
and equality checks (`msg_type == 'text'`) faithfully; list-valued fields
of task results are modelled by dedicated structures instead. -/
inductive Val where
  | vStr : String → Val
  | vNull : Val
  | vBool : Bool → Val
  | vNum : Int → Val
  deriving DecidableEq, Repr

/-- Python truthiness: the empty string, `None`, `False` and `0` are
falsy; everything else is truthy. -/
def Val.truthy : Val → Bool
  | .vStr s => !s.isEmpty
  | .vNull => false
  | .vBool b => b
  | .vNum n => n != 0

/-- Rendering used by f-strings such as `f"Invalid message type: {t}"`. -/
def Val.pyStr : Val → String
  | .vStr s => s
  | .vNull => "None"
  | .vBool true => "True"
  | .vBool false => "False"
  | .vNum n => toString n

/-- A Python dict, as an association list (keys unique in practice). -/
abbrev Data := List (String × Val)

/-- `d.get(k, default)`: the stored value when the key is present,
otherwise the default. -/
def Data.getD (d : Data) (k : String) (v0 : Val) : Val :=
  match d.find? (fun p => p.1 = k) with
  | some p => p.2
  | none => v0

/-- `d.get(k)`: the stored value, or `None` when the key is absent. -/
def Data.get (d : Data) (k : String) : Val :=
  d.getD k .vNull

/-- `d[k] = v`: replace the value in place when the key is present
(dicts keep insertion order and have unique keys), otherwise append the
binding. -/
def Data.set : Data → String → Val → Data
  | [], k, v => [(k, v)]
  | p :: rest, k, v =>
    if p.1 = k then (k, v) :: rest else p :: Data.set rest k v

/-- The keys of a dict. -/
def Data.keys (d : Data) : List String := d.map Prod.fst

/-! ## Message model and validator (`services/message_service.py`, `models/__init__.py`) -/

/-- `MessageService.validate_message(data)` from
`services/message_service.py`.  The argument is `Option Data`: `none`
models a `None` body (e.g. `request.get_json()` returning nothing), and
`not data` is true for both `None` and the empty dict. -/
def validate_message (data : Option Data) : Bool × String :=
  match data with
  | none => (false, "No data provided")
  | some d =>
    if d.isEmpty then (false, "No data provided")
    else
      let content := d.get "content"
      if !content.truthy then (false, "Content is required")
      else
        let message_type := d.getD "type" (.vStr "text")
        if message_type ∉ ([.vStr "text", .vStr "image", .vStr "audio"] : List Val) then
          (false, "Invalid message type: " ++ message_type.pyStr)
        else
          (true, "")

/-- `MessageService.normalize_message_data(data)`: fill `content` from the
alternate `text` field when `content` is absent or falsy. -/
def normalize_message_data (d : Data) : Data :=
  if !(d.getD "content" .vNull).truthy then
    if (d.getD "text" .vNull).truthy then d.set "content" (d.get "text") else d
  else d

/-- The `Message` dataclass of `models/__init__.py`.  The generated parts
of `create` (uuid-based id and the two timestamps) are supplied by the
caller as oracles, since they come from `uuid4()`/`datetime.utcnow()`;
the source field `type` keeps its name. -/
structure Message where
  id : String
  type : Val
  content : Val
  sender : Val
  timestamp : String
  format : Val
  deriving DecidableEq, Repr

/-- `Message.create(message_type, content, sender, format)`: build the
message with the freshly generated id and timestamp. -/
def Message.create (freshId ts : String) (message_type content sender format : Val) :
    Message :=
  { id := freshId, type := message_type, content := content,
    sender := sender, timestamp := ts, format := format }

/-- `Message.to_dict()`: the five mandatory fields, plus `format` when it
is truthy (`if self.format:`). -/
def Message.to_dict (m : Message) : Data :=
  [("id", .vStr m.id), ("type", m.type), ("content", m.content),
   ("sender", m.sender), ("timestamp", .vStr m.timestamp)] ++
  (if m.format.truthy then [("format", m.format)] else [])

/-! ## Delivery effects -/

/-- The addressing of one `socketio.emit` call: plain emit (all connected
sessions), `skip_sid=` (all but one), or `room=` (one session). -/
inductive Recipients where
  | all : Recipients
  | allExcept : String → Recipients
  | room : Val → Recipients
  deriving DecidableEq, Repr

/-- The sessions of a registry that an emit reaches: everyone, everyone
but the skipped sid, or the single room sid (when it is a connected
string sid; a falsy or non-string room matches no session). -/
def Recipients.deliversTo : Recipients → Finset String → Finset String
  | .all, reg => reg
  | .allExcept a, reg => reg.erase a
  | .room (.vStr s), reg => if s ∈ reg then {s} else ∅
  | .room _, _ => ∅

/-- The observable side effects of one service call or task run:
socket emits `(event, payload, recipients)`, Redis publishes
`(channel, payload)`, and Celery enqueues `(task name, payload)`. -/
structure Effects where
  emits : List (String × Data × Recipients)
  publishes : List (String × Data)
  enqueues : List (String × Data)
  deriving DecidableEq, Repr

/-- No side effects. -/
def Effects.none : Effects := ⟨[], [], []⟩

/-- All sessions of a registry reached by the direct-push emits of an
effect list. -/
def Effects.directRecipients (eff : Effects) (registry : Finset String) : Finset String :=
  eff.emits.foldl (fun acc e => acc ∪ e.2.2.deliversTo registry) ∅

/-! ## Broadcast engine (`MessageService.broadcast_message`) -/

/-- `MessageService.broadcast_message(message, include_sender, skip_sid)`:
one `socketio.emit('message', ...)` — to everyone when `include_sender`,
otherwise skipping `skip_sid` when given — and one
`redis_client.publish('messages', ...)`. -/
def broadcast_message (message : Message) (include_sender : Bool)
    (skip_sid : Option String) : Effects :=
  let message_dict := message.to_dict
  let recipients : Recipients :=
    if include_sender then .all
    else match skip_sid with
      | some s => .allExcept s
      | none => .all
  { emits := [("message", message_dict, recipients)],
    publishes := [("messages", message_dict)],
    enqueues := [] }

/-- `MessageService.send_to_sender(message, sid)`: emit the message dict
to the sender's room only. -/
def send_to_sender (message : Message) (sid : String) : Effects :=
  { emits := [("message", message.to_dict, .room (.vStr sid))],
    publishes := [], enqueues := [] }

/-! ## Session registry (`services/connection_service.py`) -/

/-- `ConnectionService`: its only state is the Python set
`_active_connections` of session ids. -/
structure ConnectionService where
  active_connections : Finset String
  deriving DecidableEq

/-- `add_connection(sid)`: `self._active_connections.add(sid)`. -/
def ConnectionService.add_connection (c : ConnectionService) (sid : String) :
    ConnectionService :=
  ⟨insert sid c.active_connections⟩

/-- `remove_connection(sid)`: `self._active_connections.discard(sid)`
(a no-op when the sid is absent). -/
def ConnectionService.remove_connection (c : ConnectionService) (sid : String) :
    ConnectionService :=
  ⟨c.active_connections.erase sid⟩

/-- `get_connection_count()`: `len(self._active_connections)`. -/
def ConnectionService.get_connection_count (c : ConnectionService) : Nat :=
  c.active_connections.card

/-- `is_connected(sid)`: `sid in self._active_connections`. -/
def ConnectionService.is_connected (c : ConnectionService) (sid : String) : Bool :=
  sid ∈ c.active_connections

/-- One registry operation: an `add_connection` or a `remove_connection`
call. -/
inductive RegOp where
  | add : String → RegOp
  | remove : String → RegOp
  deriving DecidableEq, Repr

/-- The sid an operation is about. -/
def RegOp.sid : RegOp → String
  | .add i => i
  | .remove i => i

/-- Apply one operation to the registry. -/
def ConnectionService.applyOp (c : ConnectionService) : RegOp → ConnectionService
  | .add i => c.add_connection i
  | .remove i => c.remove_connection i

/-- Run a sequence of add/remove operations against the registry, which
is empty at process start. -/
def runRegOps (ops : List RegOp) : ConnectionService :=
  ops.foldl ConnectionService.applyOp ⟨∅⟩

/-- One step of the liveness bookkeeping for a fixed id `i`: an `add i`
makes it live, a `remove i` kills it, operations on other ids leave it
alone. -/
def liveStep (i : String) (b : Bool) : RegOp → Bool
  | .add j => if j = i then true else b
  | .remove j => if j = i then false else b

/-- Spec-side predicate: the id has been added and not subsequently
removed, i.e. the last operation touching it is an `add` (starting from
the empty registry, where nothing is live). -/
def addedNotRemoved (ops : List RegOp) (i : String) : Bool :=
  ops.foldl (liveStep i) false

/-! ## Task graph root (`process_message_async` in `tasks/message_tasks.py`) -/

/-- The result dict returned by `process_message_async`:
`{'status': 'processed', 'message_id': ..., 'data': message_data}`. -/
structure ProcessResult where
  status : String
  message_id : Val
  data : Data
  deriving DecidableEq, Repr

/-- `process_message_async(message_data)`: route on the message type —
a truthy-content `text` message enqueues `generate_image_async`, a
truthy-content `audio` message enqueues `whisper_audio_async` (each with
the full `message_data`), anything else enqueues nothing. -/
def process_message_async (message_data : Data) : ProcessResult × Effects :=
  let msg_type := message_data.getD "type" (.vStr "")
  let content := message_data.getD "content" (.vStr "")
  let imageQueue :=
    if msg_type = .vStr "text" ∧ content.truthy then
      [("chatService.generate_image_async", message_data)]
    else []
  let audioQueue :=
    if msg_type = .vStr "audio" ∧ content.truthy then
      [("chatService.whisper_audio_async", message_data)]
    else []
  ({ status := "processed", message_id := message_data.get "id", data := message_data },
   { emits := [], publishes := [], enqueues := imageQueue ++ audioQueue })

/-! ## Image-generation job (`generate_image_async`) -/

/-- Outcome of `json.loads(image_prompt)` on the prompt string: a parse
failure (`JSONDecodeError`, fall back to the raw string), a JSON object
(use its `text` field), or a JSON value that is not an object, whose
`.get` attribute access raises. -/
inductive ParseOutcome where
  | notJson : ParseOutcome
  | object : Data → ParseOutcome
  | nonObject : String → ParseOutcome

/-- Steps 1–2 of `generate_image_async`: extract the prompt text, parsing
a string content as a JSON envelope with a `text` field when possible. -/
def extract_prompt (jsonParse : String → ParseOutcome) (image_prompt : Val) :
    Except String Val :=
  match image_prompt with
  | .vStr s =>
    match jsonParse s with
    | .notJson => .ok (.vStr s)
    | .object prompt_data => .ok (prompt_data.getD "text" (.vStr s))
    | .nonObject e => .error e
  | v => .ok v

/-- The upstream response to `POST /generate`, already JSON-decoded:
the HTTP status code and the body's `images` field (`none` when the key
is absent, otherwise the list of base64 image strings, per the service
contract `{images: [base64, ...]}`).  An `Except.error` models
`requests.post` itself raising. -/
abbrev GenResponse := Except String (Nat × Option (List String))

/-- The success dict returned by `generate_image_async`:
`{"prompt": ..., "images": [first image]}`. -/
structure GenResult where
  prompt : Val
  images : List String
  deriving DecidableEq, Repr

/-- `generate_image_async(message_data)`.  `jsonParse` is the oracle for
`json.loads` on the prompt; `reencode` is the oracle for the
base64-decode / PIL-open / JPEG re-encode of the first returned image
(`none` when that raises — the exception is caught and logged, and the
emit is skipped); `response` is the upstream call's outcome.  Returns the
Python `(result, error)` pair plus the explicit effects. -/
def generate_image_async (jsonParse : String → ParseOutcome)
    (reencode : String → Option String) (response : GenResponse)
    (message_data : Data) : (Option GenResult × Option String) × Effects :=
  let image_prompt := message_data.getD "content" (.vStr "")
  match extract_prompt jsonParse image_prompt with
  | .error e => ((none, some ("Error generating image: " ++ e)), Effects.none)
  | .ok prompt_text =>
    match response with
    | .error e => ((none, some ("Error generating image: " ++ e)), Effects.none)
    | .ok (status_code, imagesField) =>
      if status_code ≠ 200 then
        ((none, some ("API Error: " ++ toString status_code)), Effects.none)
      else
        match imagesField with
        | none =>
          ((none, some "API Error: No images returned from API"), Effects.none)
        | some [] =>
          ((none, some "API Error: No images returned from API"), Effects.none)
        | some (img0 :: _) =>
          let sender_sid := message_data.get "sid"
          let emits :=
            if sender_sid.truthy then
              match reencode img0 with
              | some img_base64 =>
                [("image",
                  ([("status", .vStr "success"), ("type", .vStr "image"),
                    ("image_data", .vStr img_base64),
                    ("message_id", message_data.get "id"),
                    ("prompt", prompt_text), ("sender", .vStr "Server")] : Data),
                  Recipients.room sender_sid)]
              | none => []
            else []
          ((some { prompt := prompt_text, images := [img0] }, none),
           { emits := emits, publishes := [], enqueues := [] })

/-! ## Audio-transcription job (`whisper_audio_async`) -/

/-- How one run of `whisper_audio_async` ends: either an exception
escapes the task (`raised`), or the task returns the Python
`(result, error)` pair. -/
inductive WhisperOutcome where
  | raised : String → WhisperOutcome
  | returned : Option Data → Option String → WhisperOutcome
  deriving DecidableEq, Repr

/-- Python `str.lstrip()`: drop the leading whitespace characters. -/
def pyLstrip (s : String) : String :=
  ⟨s.data.dropWhile Char.isWhitespace⟩

/-- The transcription text built by the segment loop: `result` starts as
`" "` and each segment appends `f"{segment.text.lstrip()}\n\n"`. -/
def transcriptionText (segments : List String) : String :=
  segments.foldl (fun acc s => acc ++ pyLstrip s ++ "\n\n") " "

/-- `whisper_audio_async(message_data)`.  The oracles model the external
pieces: `modelLoad` is the `WhisperModel(...)` construction — note it runs
BEFORE the `try` block, so its exception escapes the task; `b64decode` is
`base64.b64decode` on the content value (`.error` when it raises);
`transcribe` is the model's segment output (`.error` when transcription
raises).  `fs` is the set of filesystem paths existing before the run;
the returned set is the paths existing after it.  The `with open(...)`
creates `temp.wav` before the decode runs, closes the handle on exit of
the block, and nothing ever deletes the file. -/
def whisper_audio_async (modelLoad : Except String Unit)
    (b64decode : Val → Except String Unit)
    (transcribe : Except String (List String))
    (fs : Finset String) (message_data : Data) :
    WhisperOutcome × Effects × Finset String :=
  match modelLoad with
  | .error e => (.raised e, Effects.none, fs)
  | .ok _ =>
    let audio_base64 := message_data.getD "content" (.vStr "")
    if !audio_base64.truthy then
      (.returned none (some "No audio content provided in message_data[content]"),
       Effects.none, fs)
    else
      let fs1 := insert "temp.wav" fs
      match b64decode audio_base64 with
      | .error e => (.returned none (some e), Effects.none, fs1)
      | .ok _ =>
        match transcribe with
        | .error e => (.returned none (some e), Effects.none, fs1)
        | .ok segments =>
          let result := transcriptionText segments
          let message_data1 := message_data.set "content" (.vStr result)
          (.returned (some [("text", .vStr result)]) none,
           { emits := [], publishes := [],
             enqueues := [("chatService.generate_image_async", message_data1)] },
           fs1)

/-! ## Ingestion (`MessageService.process_incoming_message`, REST `send_message`) -/

/-- `MessageService.process_incoming_message(data, sender_sid, ...)`:
normalize, validate, build the `Message`, optionally confirm to the
sender, optionally broadcast to the others, and queue
`chatService.process_message_async` with the message dict carrying the
sender's sid. -/
def process_incoming_message (freshId ts : String) (data0 : Data)
    (sender_sid : String) (send_confirmation broadcast_to_others
    queue_async_task : Bool) : (Option Message × Option String) × Effects :=
  let data := normalize_message_data data0
  let v := validate_message (some data)
  if !v.1 then ((none, some v.2), Effects.none)
  else
    let message_type := data.getD "type" (.vStr "text")
    let content := data.get "content"
    let sender := data.getD "sender" (.vStr "anonymous")
    let format := data.get "format"
    let message := Message.create freshId ts message_type content sender format
    let message_dict := message.to_dict
    let confirmEmits :=
      if send_confirmation then (send_to_sender message sender_sid).emits else []
    let bcast :=
      if broadcast_to_others then broadcast_message message false (some sender_sid)
      else Effects.none
    let queued :=
      if queue_async_task then
        [("chatService.process_message_async",
          message_dict.set "sid" (.vStr sender_sid))]
      else []
    ((some message, none),
     { emits := confirmEmits ++ bcast.emits, publishes := bcast.publishes,
       enqueues := queued })

/-- The REST `POST /message` handler `send_message` of
`routes/api_routes.py`: validate, build the message with the type
defaulted to `text`, broadcast with `include_sender=True`, and answer
200 with the message dict (400 with the reason on validation failure). -/
def send_message (freshId ts : String) (data : Option Data) :
    (Nat × Option Data × Option String) × Effects :=
  let v := validate_message data
  if !v.1 then ((400, none, some v.2), Effects.none)
  else
    match data with
    | none => ((400, none, some "No data provided"), Effects.none)
    | some d =>
      let message := Message.create freshId ts (d.getD "type" (.vStr "text"))
        (d.get "content") (d.getD "sender" (.vStr "anonymous")) (d.get "format")
      ((200, some message.to_dict, none), broadcast_message message true none)
/-! ## Helper lemmas -/

theorem getD_set_ne (d : Data) (k k' : String) (v v0 : Val) (h : k' ≠ k) :
    (d.set k v).getD k' v0 = d.getD k' v0 := by
  have hne : ¬ ((k : String) = k') := fun hh => h hh.symm
  induction d with
  | nil => simp [Data.set, Data.getD, List.find?, hne]
  | cons p rest ih =>
    by_cases hp : p.1 = k
    · simp [Data.set, Data.getD, List.find?, hp, hne]
    · by_cases hk : p.1 = k'
      · simp [Data.set, Data.getD, List.find?, hp, hk, h]
      · simpa [Data.set, Data.getD, List.find?, hp, hk] using ih

theorem getD_eq_default_of_not_mem_keys (d : Data) (k : String) (v0 : Val)
    (h : k ∉ d.keys) : d.getD k v0 = v0 := by
  induction d with
  | nil => rfl
  | cons p rest ih =>
    simp only [Data.keys, List.map_cons, List.mem_cons] at h
    push_neg at h
    have h1 : ¬ (p.1 = k) := fun hh => h.1 hh.symm
    simpa [Data.getD, List.find?, h1] using ih (by simpa [Data.keys] using h.2)

theorem normalize_id_of_truthy (d : Data) (h : (Data.get d "content").truthy = true) :
    normalize_message_data d = d := by
  simp only [Data.get] at h
  simp [normalize_message_data, h]

/-! ## C7: the validator contract -/

/-- C7: `validate_message` rejects exactly the empty/`None` inputs, the
inputs with missing-or-falsy `content`, and the inputs whose `type`
(defaulted to `text` when absent) lies outside `{text, image, audio}`;
the three concrete probes behave as the spec states. -/
theorem c7_validate_message_contract :
    ((validate_message none).1 = false) ∧
    (∀ d : Data,
      (validate_message (some d)).1 = false ↔
        (d = [] ∨ (Data.get d "content").truthy = false ∨
          Data.getD d "type" (Val.vStr "text") ∉
            ([Val.vStr "text", Val.vStr "image", Val.vStr "audio"] : List Val))) ∧
    validate_message (some [("content", Val.vStr ""), ("type", Val.vStr "text")]) =
      (false, "Content is required") ∧
    validate_message (some [("content", Val.vStr "hi"), ("type", Val.vStr "video")]) =
      (false, "Invalid message type: video") ∧
    validate_message (some [("content", Val.vStr "hi"), ("type", Val.vStr "text")]) =
      (true, "") := by
  refine ⟨rfl, ?_, by decide, by decide, by decide⟩
  intro d
  rcases d with _ | ⟨p, rest⟩
  · simp [validate_message, Data.get, Data.getD]
  · by_cases hc : (Data.get (p :: rest) "content").truthy = true
    · by_cases ht : Data.getD (p :: rest) "type" (Val.vStr "text") ∈
          ([Val.vStr "text", Val.vStr "image", Val.vStr "audio"] : List Val)
      · simp [validate_message, hc, ht]
      · simp [validate_message, hc, ht]
    · simp only [Bool.not_eq_true] at hc
      simp [validate_message, hc]

/-! ## C8: the broadcast engine -/

/-- C8: `broadcast_message(msg, include_sender=False, skip_sid=A)`
direct-pushes to exactly the sessions of the registry other than `A`,
and publishes the message dict exactly once, to the `messages` topic. -/
theorem c8_broadcast_skip_sid_exact :
    ∀ (m : Message) (a : String) (registry : Finset String),
      (broadcast_message m false (some a)).directRecipients registry =
        registry.erase a ∧
      (broadcast_message m false (some a)).publishes = [("messages", m.to_dict)] ∧
      (broadcast_message m false (some a)).emits =
        [("message", m.to_dict, Recipients.allExcept a)] := by
  intro m a registry
  refine ⟨?_, rfl, rfl⟩
  simp [broadcast_message, Effects.directRecipients, Recipients.deliversTo]

/-! ## C9: session-registry consistency -/

theorem foldl_applyOp_mem (ops : List RegOp) :
    ∀ (c : ConnectionService) (i : String),
      (i ∈ (ops.foldl ConnectionService.applyOp c).active_connections) ↔
        ops.foldl (liveStep i) (decide (i ∈ c.active_connections)) = true := by
  induction ops with
  | nil =>
    intro c i
    simp
  | cons op rest ih =>
    intro c i
    cases op with
    | add j =>
      simp only [List.foldl_cons, ConnectionService.applyOp]
      rw [ih]
      have hacc : decide (i ∈ (c.add_connection j).active_connections) =
          liveStep i (decide (i ∈ c.active_connections)) (.add j) := by
        by_cases hj : j = i
        · subst hj
          simp [ConnectionService.add_connection, liveStep]
        · have hij : ¬ (i = j) := fun hh => hj hh.symm
          simp [ConnectionService.add_connection, liveStep, hj,
            Finset.mem_insert, hij]
      rw [hacc]
    | remove j =>
      simp only [List.foldl_cons, ConnectionService.applyOp]
      rw [ih]
      have hacc : decide (i ∈ (c.remove_connection j).active_connections) =
          liveStep i (decide (i ∈ c.active_connections)) (.remove j) := by
        by_cases hj : j = i
        · subst hj
          simp [ConnectionService.remove_connection, liveStep]
        · have hij : ¬ (i = j) := fun hh => hj hh.symm
          simp [ConnectionService.remove_connection, liveStep, hj,
            Finset.mem_erase, hij]
      rw [hacc]

theorem live_mem_sids (ops : List RegOp) :
    ∀ (i : String) (b : Bool),
      ops.foldl (liveStep i) b = true → b = true ∨ i ∈ ops.map RegOp.sid := by
  induction ops with
  | nil =>
    intro i b h
    exact Or.inl h
  | cons op rest ih =>
    intro i b h
    simp only [List.foldl_cons] at h
    rcases ih i _ h with h1 | h1
    · cases op with
      | add j =>
        by_cases hj : j = i
        · right
          simp [RegOp.sid, hj]
        · simp only [liveStep, if_neg hj] at h1
          exact Or.inl h1
      | remove j =>
        by_cases hj : j = i
        · simp [liveStep, hj] at h1
        · simp only [liveStep, if_neg hj] at h1
          exact Or.inl h1
    · right
      simp [h1]

theorem runRegOps_mem (ops : List RegOp) (i : String) :
    i ∈ (runRegOps ops).active_connections ↔ addedNotRemoved ops i = true := by
  unfold runRegOps addedNotRemoved
  rw [foldl_applyOp_mem]
  simp

/-- C9: starting from the empty registry, any sequence of
`add_connection`/`remove_connection` calls leaves `is_connected` true for
exactly the ids that were added and not subsequently removed, and
`get_connection_count` equal to the number of distinct such ids. -/
theorem c9_registry_consistency :
    ∀ ops : List RegOp,
      (∀ i, (runRegOps ops).is_connected i = addedNotRemoved ops i) ∧
      (runRegOps ops).get_connection_count =
        ((ops.map RegOp.sid).toFinset.filter
          (fun i => addedNotRemoved ops i = true)).card := by
  intro ops
  have hset : (runRegOps ops).active_connections =
      (ops.map RegOp.sid).toFinset.filter (fun i => addedNotRemoved ops i = true) := by
    ext i
    rw [Finset.mem_filter, List.mem_toFinset, runRegOps_mem]
    constructor
    · intro h
      rcases live_mem_sids ops i false h with h1 | h1
      · cases h1
      · exact ⟨h1, h⟩
    · intro h
      exact h.2
  constructor
  · intro i
    rcases hA : addedNotRemoved ops i with _ | _
    · simp [ConnectionService.is_connected, (runRegOps_mem ops i).not.mpr (by simp [hA])]
    · simp [ConnectionService.is_connected, (runRegOps_mem ops i).mpr hA]
  · rw [ConnectionService.get_connection_count, hset]

/-! ## C6: task-graph routing -/

theorem mem_enqueues_of_text (md : Data)
    (ht : Data.getD md "type" (Val.vStr "") = Val.vStr "text")
    (hc : (Data.getD md "content" (Val.vStr "")).truthy = true) :
    ("chatService.generate_image_async", md) ∈
      (process_message_async md).2.enqueues := by
  simp [process_message_async, ht, hc]

/-- C6: `process_message_async` enqueues the image-generation task iff
the payload's type is `text` with truthy content, the transcription task
iff the type is `audio` with truthy content, and nothing at all for any
other type. -/
theorem c6_task_graph_routing :
    ∀ md : Data,
      (("chatService.generate_image_async", md) ∈
          (process_message_async md).2.enqueues ↔
        Data.getD md "type" (Val.vStr "") = Val.vStr "text" ∧
          (Data.getD md "content" (Val.vStr "")).truthy = true) ∧
      (("chatService.whisper_audio_async", md) ∈
          (process_message_async md).2.enqueues ↔
        Data.getD md "type" (Val.vStr "") = Val.vStr "audio" ∧
          (Data.getD md "content" (Val.vStr "")).truthy = true) ∧
      (Data.getD md "type" (Val.vStr "") ≠ Val.vStr "text" →
        Data.getD md "type" (Val.vStr "") ≠ Val.vStr "audio" →
        (process_message_async md).2.enqueues = []) := by
  intro md
  have hne : ("chatService.generate_image_async" : String) ≠
      "chatService.whisper_audio_async" := by decide
  by_cases ht : Data.getD md "type" (Val.vStr "") = Val.vStr "text"
  · have ha : Data.getD md "type" (Val.vStr "") ≠ Val.vStr "audio" := by
      rw [ht]
      decide
    by_cases hc : (Data.getD md "content" (Val.vStr "")).truthy = true
    · refine ⟨?_, ?_, ?_⟩
      · simp [process_message_async, ht, ha, hc]
      · simp [process_message_async, ht, ha, hc, hne]
      · intro h1 _
        exact absurd ht h1
    · refine ⟨?_, ?_, ?_⟩
      · simp [process_message_async, ht, ha, hc]
      · simp [process_message_async, ht, ha, hc]
      · intro h1 _
        exact absurd ht h1
  · by_cases ha : Data.getD md "type" (Val.vStr "") = Val.vStr "audio"
    · by_cases hc : (Data.getD md "content" (Val.vStr "")).truthy = true
      · refine ⟨?_, ?_, ?_⟩
        · simp [process_message_async, ht, ha, hc, hne]
        · simp [process_message_async, ht, ha, hc]
        · intro _ h2
          exact absurd ha h2
      · refine ⟨?_, ?_, ?_⟩
        · simp [process_message_async, ht, ha, hc]
        · simp [process_message_async, ht, ha, hc]
        · intro _ h2
          exact absurd ha h2
    · refine ⟨?_, ?_, ?_⟩
      · simp [process_message_async, ht, ha]
      · simp [process_message_async, ht, ha]
      · intro _ _
        simp [process_message_async, ht, ha]

/-- Witness for C6 at concrete payloads: a truthy `text` payload is
routed to the image task, and an `image`-typed payload enqueues
nothing. -/
theorem c6_task_graph_routing_witness :
    ("chatService.generate_image_async",
        ([("type", Val.vStr "text"), ("content", Val.vStr "hi")] : Data)) ∈
      (process_message_async
        ([("type", Val.vStr "text"), ("content", Val.vStr "hi")] : Data)).2.enqueues ∧
    (process_message_async
      ([("type", Val.vStr "image"), ("content", Val.vStr "pic")] : Data)).2.enqueues =
        [] := by
  constructor
  · exact (c6_task_graph_routing
      ([("type", Val.vStr "text"), ("content", Val.vStr "hi")] : Data)).1.mpr
      (by constructor <;> decide)
  · exact (c6_task_graph_routing
      ([("type", Val.vStr "image"), ("content", Val.vStr "pic")] : Data)).2.2
      (by decide) (by decide)

/-! ## C1: session-scoped delivery of the generated image -/

/-- C1: every emit produced by `generate_image_async` is an `image`
event addressed with `room=` to the sid stored in the job payload —
never a broadcast — and any session it reaches is exactly that stored
sid. -/
theorem c1_image_delivery_session_scoped :
    ∀ (jsonParse : String → ParseOutcome) (reencode : String → Option String)
      (response : GenResponse) (md : Data) (e : String × Data × Recipients),
      e ∈ (generate_image_async jsonParse reencode response md).2.emits →
        e.1 = "image" ∧
        e.2.2 = Recipients.room (Data.get md "sid") ∧
        ∀ (registry : Finset String) (s : String),
          s ∈ e.2.2.deliversTo registry → Data.get md "sid" = Val.vStr s := by
  intro jp re resp md e he
  simp only [generate_image_async] at he
  rcases hep : extract_prompt jp (Data.getD md "content" (Val.vStr "")) with eM | p
  · simp only [hep] at he
    simp [Effects.none] at he
  · simp only [hep] at he
    rcases resp with eM | ⟨status, imgs⟩
    · simp [Effects.none] at he
    · by_cases hs : status = 200
      · subst hs
        rcases imgs with _ | l
        · simp [Effects.none] at he
        · rcases l with _ | ⟨img0, restImgs⟩
          · simp [Effects.none] at he
          · by_cases hsid : (Data.get md "sid").truthy = true
            · rcases hre : re img0 with _ | b64
              · simp [hsid, hre] at he
              · simp [hsid, hre] at he
                subst he
                refine ⟨rfl, rfl, ?_⟩
                intro reg s hdel
                rcases hv : Data.get md "sid" with s' | _ | b | n
                · rw [hv] at hdel
                  simp only [Recipients.deliversTo] at hdel
                  by_cases hm : s' ∈ reg
                  · rw [if_pos hm] at hdel
                    rw [Finset.mem_singleton] at hdel
                    exact congrArg Val.vStr hdel.symm
                  · rw [if_neg hm] at hdel
                    exact absurd hdel (Finset.not_mem_empty s)
                · rw [hv] at hdel
                  exact absurd hdel (Finset.not_mem_empty s)
                · rw [hv] at hdel
                  exact absurd hdel (Finset.not_mem_empty s)
                · rw [hv] at hdel
                  exact absurd hdel (Finset.not_mem_empty s)
            · simp [hsid] at he
      · simp [generate_image_async, hep, hs, Effects.none] at he

/-- Witness for C1 at a concrete successful run (sid `S`): the stored
target sid is the only possible recipient of the emitted event. -/
theorem c1_image_delivery_session_scoped_witness :
    Data.get
      [("id", Val.vStr "m1"), ("content", Val.vStr "cat"), ("sid", Val.vStr "S")]
      "sid" = Val.vStr "S" := by
  have h := c1_image_delivery_session_scoped (fun _ => ParseOutcome.notJson)
    (fun s => some s) (.ok (200, some ["IMG"]))
    [("id", Val.vStr "m1"), ("content", Val.vStr "cat"), ("sid", Val.vStr "S")]
    ("image",
      ([("status", Val.vStr "success"), ("type", Val.vStr "image"),
        ("image_data", Val.vStr "IMG"), ("message_id", Val.vStr "m1"),
        ("prompt", Val.vStr "cat"), ("sender", Val.vStr "Server")] : Data),
      Recipients.room (Val.vStr "S")) (by decide)
  exact h.2.2 {"S"} "S" (by decide)

/-! ## C5: upstream failure is terminal for the image job -/

/-- C5: on a non-200 upstream status, or a 200 response with a missing
or empty `images` list, `generate_image_async` returns `(None, error)`,
emits nothing, publishes nothing and enqueues nothing. -/
theorem c5_upstream_failure_terminal :
    ∀ (jsonParse : String → ParseOutcome) (reencode : String → Option String)
      (md : Data) (status : Nat) (imgs : Option (List String)),
      (status ≠ 200 ∨ imgs = none ∨ imgs = some []) →
      (generate_image_async jsonParse reencode (.ok (status, imgs)) md).1.1 =
          none ∧
      ((generate_image_async jsonParse reencode (.ok (status, imgs)) md).1.2).isSome =
          true ∧
      (generate_image_async jsonParse reencode (.ok (status, imgs)) md).2 =
        Effects.none := by
  intro jp re md status imgs h
  rcases hep : extract_prompt jp (Data.getD md "content" (Val.vStr "")) with eM | p
  · refine ⟨?_, ?_, ?_⟩ <;> simp [generate_image_async, hep]
  · rcases h with hs | hI | hI
    · refine ⟨?_, ?_, ?_⟩ <;> simp [generate_image_async, hep, hs]
    · subst hI
      by_cases hs : status = 200
      · subst hs
        refine ⟨?_, ?_, ?_⟩ <;> simp [generate_image_async, hep]
      · refine ⟨?_, ?_, ?_⟩ <;> simp [generate_image_async, hep, hs]
    · subst hI
      by_cases hs : status = 200
      · subst hs
        refine ⟨?_, ?_, ?_⟩ <;> simp [generate_image_async, hep]
      · refine ⟨?_, ?_, ?_⟩ <;> simp [generate_image_async, hep, hs]

/-- Witness for C5 at a concrete 500 response. -/
theorem c5_upstream_failure_terminal_witness :
    (generate_image_async (fun _ => ParseOutcome.notJson) (fun s => some s)
        (.ok (500, some ["IMG"]))
        [("content", Val.vStr "x"), ("sid", Val.vStr "S")]).1.1 = none ∧
    ((generate_image_async (fun _ => ParseOutcome.notJson) (fun s => some s)
        (.ok (500, some ["IMG"]))
        [("content", Val.vStr "x"), ("sid", Val.vStr "S")]).1.2).isSome = true ∧
    (generate_image_async (fun _ => ParseOutcome.notJson) (fun s => some s)
        (.ok (500, some ["IMG"]))
        [("content", Val.vStr "x"), ("sid", Val.vStr "S")]).2 = Effects.none :=
  c5_upstream_failure_terminal (fun _ => ParseOutcome.notJson) (fun s => some s)
    [("content", Val.vStr "x"), ("sid", Val.vStr "S")] 500 (some ["IMG"])
    (Or.inl (by decide))

/-! ## C2: the transcription → image chain -/

/-- Counterexample to C2 as stated: for a mocked transcription segment
`"hello world"`, the enqueued image job's `content` is the decorated
string `" hello world\n\n"` (leading space from the `result = " "`
initialiser, trailing blank line appended per segment), not
`"hello world"`. -/
theorem c2_transcription_chain_counterexample :
    ((whisper_audio_async (.ok ()) (fun _ => .ok ()) (.ok ["hello world"]) ∅
        [("id", Val.vStr "m1"), ("type", Val.vStr "audio"),
         ("content", Val.vStr "UklGRg=="), ("sid", Val.vStr "S")]).2.1.enqueues.map
      (fun q => Data.get q.2 "content")) = [Val.vStr " hello world\n\n"] ∧
    Val.vStr " hello world\n\n" ≠ Val.vStr "hello world" := by
  decide

/-- C2 amended: on a successful transcription the job enqueues exactly
one `generate_image_async` job, whose `content` is the concatenation
`" "` followed by each recognised segment left-stripped and suffixed by
a blank line (`transcriptionText`), and whose `sid` is unchanged from
the original sender's payload. -/
theorem c2_transcription_chain_enqueue :
    ∀ (b64decode : Val → Except String Unit) (segments : List String)
      (fs : Finset String) (md : Data),
      (Data.getD md "content" (Val.vStr "")).truthy = true →
      b64decode (Data.getD md "content" (Val.vStr "")) = .ok () →
      (whisper_audio_async (.ok ()) b64decode (.ok segments) fs md).2.1.enqueues =
        [("chatService.generate_image_async",
          md.set "content" (Val.vStr (transcriptionText segments)))] ∧
      Data.get (md.set "content" (Val.vStr (transcriptionText segments))) "sid" =
        Data.get md "sid" := by
  intro dec segs fs md hc hdec
  constructor
  · simp [whisper_audio_async, hc, hdec]
  · simp only [Data.get]
    exact getD_set_ne md "content" "sid" _ _ (by decide)

/-- Witness for the amended C2 at a concrete audio payload with one
mocked segment. -/
theorem c2_transcription_chain_enqueue_witness :
    (whisper_audio_async (.ok ()) (fun _ => .ok ()) (.ok ["hello world"]) ∅
        [("content", Val.vStr "QUJD"), ("sid", Val.vStr "S")]).2.1.enqueues =
      [("chatService.generate_image_async",
        Data.set [("content", Val.vStr "QUJD"), ("sid", Val.vStr "S")] "content"
          (Val.vStr (transcriptionText ["hello world"])))] ∧
    Data.get (Data.set [("content", Val.vStr "QUJD"), ("sid", Val.vStr "S")]
        "content" (Val.vStr (transcriptionText ["hello world"]))) "sid" =
      Data.get [("content", Val.vStr "QUJD"), ("sid", Val.vStr "S")] "sid" :=
  c2_transcription_chain_enqueue (fun _ => .ok ()) ["hello world"] ∅
    [("content", Val.vStr "QUJD"), ("sid", Val.vStr "S")] (by decide) rfl

/-! ## C3: the temp file is never cleaned up -/

/-- Counterexample to C3 as stated: a fully successful run still leaves
`temp.wav` on disk after the job returns — nothing ever deletes it. -/
theorem c3_temp_cleanup_counterexample :
    ("temp.wav" ∈ (whisper_audio_async (.ok ()) (fun _ => .ok ()) (.ok ["hi"]) ∅
        [("content", Val.vStr "UklGRg=="), ("sid", Val.vStr "S")]).2.2) ∧
    ((whisper_audio_async (.ok ()) (fun _ => .ok ()) (.ok ["hi"]) ∅
        [("content", Val.vStr "UklGRg=="), ("sid", Val.vStr "S")]).1 =
      WhisperOutcome.returned (some [("text", Val.vStr " hi\n\n")]) none) := by
  decide

/-- C3 amended: the job writes the decoded audio to `temp.wav` (the
`with open` block only guarantees the handle is closed), and on every
path that reaches the decode step — success, decode failure and
transcription failure alike — the file still exists after the job
returns. -/
theorem c3_temp_file_persists :
    ∀ (b64decode : Val → Except String Unit)
      (transcribe : Except String (List String)) (fs : Finset String) (md : Data),
      (Data.getD md "content" (Val.vStr "")).truthy = true →
      "temp.wav" ∈ (whisper_audio_async (.ok ()) b64decode transcribe fs md).2.2 := by
  intro dec tr fs md hc
  rcases hdec : dec (Data.getD md "content" (Val.vStr "")) with e | u
  · simp [whisper_audio_async, hc, hdec]
  · rcases htr : tr with e | segs
    · simp [whisper_audio_async, hc, hdec, htr]
    · simp [whisper_audio_async, hc, hdec, htr]

/-- Witness for the amended C3: even when the base64 decode fails, the
(empty) temp file exists after the run. -/
theorem c3_temp_file_persists_witness :
    "temp.wav" ∈ (whisper_audio_async (.ok ()) (fun _ => .error "bad base64")
        (.ok []) ∅ [("content", Val.vStr "x")]).2.2 :=
  c3_temp_file_persists (fun _ => .error "bad base64") (.ok []) ∅
    [("content", Val.vStr "x")] (by decide)

/-! ## C4: failure handling of the transcription job -/

/-- Counterexample to C4 as stated: the `WhisperModel(...)` constructor
runs before the `try` block, so a model-loading failure is raised out of
the job instead of being returned as an error result. -/
theorem c4_failure_handling_counterexample :
    (whisper_audio_async (.error "model load failed") (fun _ => .ok ()) (.ok [])
        ∅ [("content", Val.vStr "x")]).1 =
      WhisperOutcome.raised "model load failed" := by
  decide

/-- C4 amended: for the failures raised inside the `try` block — missing
content, base64-decode failure, transcription failure — the job returns
`(None, error)` without raising, enqueues no follow-on job and emits
nothing; only a model-loading failure escapes as an exception. -/
theorem c4_caught_failures_terminal :
    ∀ (b64decode : Val → Except String Unit)
      (transcribe : Except String (List String)) (fs : Finset String) (md : Data),
      ((∃ e, b64decode (Data.getD md "content" (Val.vStr "")) = .error e) ∨
        (∃ e, transcribe = .error e) ∨
        (Data.getD md "content" (Val.vStr "")).truthy = false) →
      (∃ msg, (whisper_audio_async (.ok ()) b64decode transcribe fs md).1 =
        WhisperOutcome.returned none (some msg)) ∧
      (whisper_audio_async (.ok ()) b64decode transcribe fs md).2.1.enqueues = [] ∧
      (whisper_audio_async (.ok ()) b64decode transcribe fs md).2.1.emits = [] := by
  intro dec tr fs md h
  by_cases hc : (Data.getD md "content" (Val.vStr "")).truthy = true
  · rcases hdec : dec (Data.getD md "content" (Val.vStr "")) with e | u
    · refine ⟨⟨e, ?_⟩, ?_, ?_⟩ <;>
        simp [whisper_audio_async, hc, hdec, Effects.none]
    · rcases htr : tr with e | segs
      · refine ⟨⟨e, ?_⟩, ?_, ?_⟩ <;>
          simp [whisper_audio_async, hc, hdec, htr, Effects.none]
      · exfalso
        rcases h with ⟨e, he⟩ | ⟨e, he⟩ | hff
        · rw [hdec] at he
          exact Except.noConfusion he
        · rw [htr] at he
          exact Except.noConfusion he
        · rw [hc] at hff
          exact Bool.noConfusion hff
  · have hcf : (Data.getD md "content" (Val.vStr "")).truthy = false := by
      simpa using hc
    refine ⟨⟨"No audio content provided in message_data[content]", ?_⟩, ?_, ?_⟩ <;>
      simp [whisper_audio_async, hcf, Effects.none]

/-- Witness for the amended C4 at a concrete transcription failure. -/
theorem c4_caught_failures_terminal_witness :
    (∃ msg, (whisper_audio_async (.ok ()) (fun _ => .ok ())
        (.error "transcribe boom") ∅ [("content", Val.vStr "x")]).1 =
      WhisperOutcome.returned none (some msg)) ∧
    (whisper_audio_async (.ok ()) (fun _ => .ok ()) (.error "transcribe boom")
        ∅ [("content", Val.vStr "x")]).2.1.enqueues = [] ∧
    (whisper_audio_async (.ok ()) (fun _ => .ok ()) (.error "transcribe boom")
        ∅ [("content", Val.vStr "x")]).2.1.emits = [] :=
  c4_caught_failures_terminal (fun _ => .ok ()) (.error "transcribe boom") ∅
    [("content", Val.vStr "x")] (Or.inr (Or.inl ⟨"transcribe boom", rfl⟩))

/-! ## C10: a missing `type` field defaults to `text` end to end -/

/-- C10: an input with truthy content and no `type` key at all is
accepted by the validator, turned into a `text`-typed `Message` by
`process_incoming_message` (which queues it for async processing with
the sender's sid attached), routed by `process_message_async` into the
image-generation job, and accepted (HTTP 200) and broadcast by the REST
`send_message` handler with the type defaulted to `text`. -/
theorem c10_missing_type_defaults_to_text :
    ∀ (d : Data) (freshId ts sid : String),
      "type" ∉ Data.keys d →
      (Data.get d "content").truthy = true →
      validate_message (some d) = (true, "") ∧
      (∃ m : Message,
        (process_incoming_message freshId ts d sid false true true).1.1 = some m ∧
        m.type = Val.vStr "text" ∧
        (process_incoming_message freshId ts d sid false true true).2.enqueues =
          [("chatService.process_message_async",
            (Message.to_dict m).set "sid" (Val.vStr sid))] ∧
        ("chatService.generate_image_async",
            (Message.to_dict m).set "sid" (Val.vStr sid)) ∈
          (process_message_async
            ((Message.to_dict m).set "sid" (Val.vStr sid))).2.enqueues) ∧
      (send_message freshId ts (some d)).1.1 = 200 ∧
      (send_message freshId ts (some d)).2 =
        broadcast_message
          (Message.create freshId ts (Val.vStr "text") (Data.get d "content")
            (Data.getD d "sender" (Val.vStr "anonymous")) (Data.get d "format"))
          true none := by
  intro d freshId ts sid hkeys hcontent
  have hty : Data.getD d "type" (Val.vStr "text") = Val.vStr "text" :=
    getD_eq_default_of_not_mem_keys d "type" _ hkeys
  have hie : d.isEmpty = false := by
    rcases d with _ | ⟨p, rest⟩
    · simp [Data.get, Data.getD, List.find?, Val.truthy] at hcontent
    · rfl
  have hval : validate_message (some d) = (true, "") := by
    simp [validate_message, hie, Data.get] at *
    simp [hcontent, hty]
  have hnorm : normalize_message_data d = d := normalize_id_of_truthy d hcontent
  refine ⟨hval,
    ⟨Message.create freshId ts (Val.vStr "text") (Data.get d "content")
      (Data.getD d "sender" (Val.vStr "anonymous")) (Data.get d "format"),
      ?_, rfl, ?_, ?_⟩, ?_, ?_⟩
  · simp [process_incoming_message, hnorm, hval, hty]
  · simp [process_incoming_message, hnorm, hval, hty]
  · apply mem_enqueues_of_text
    · rw [getD_set_ne _ "sid" "type" _ _ (by decide)]
      simp [Message.create, Message.to_dict, Data.getD, List.find?]
    · rw [getD_set_ne _ "sid" "content" _ _ (by decide)]
      simpa [Message.create, Message.to_dict, Data.getD, List.find?] using hcontent
  · simp [send_message, hval]
  · simp [send_message, hval, hty]

/-- Witness for C10 at the concrete input `{content: "hi"}`. -/
theorem c10_missing_type_defaults_to_text_witness :
    validate_message (some [("content", Val.vStr "hi")]) = (true, "") ∧
    (send_message "m1" "t0" (some [("content", Val.vStr "hi")])).1.1 = 200 := by
  have h := c10_missing_type_defaults_to_text [("content", Val.vStr "hi")]
    "m1" "t0" "S" (by decide) (by decide)
  exact ⟨h.1, h.2.2.1⟩
